import Mathlib

/-!
Verification of the enka.network interface repository: a shallow embedding of
`src/utils/enka.py` (the stat-identifier translator, the profile decoder and
the caching retrieval layer) together with theorems about the decoded values.

Python floats are modelled as rationals, JSON dictionaries as Lean structures
over the fields the code reads, and fallible Python code (raising `ValueError`
etc.) as `Except`-valued functions over an explicit error type mirroring the
distinct raise sites.
-/

namespace Enka

/-- The closed enumeration of artifact stat kinds (`StatModifier` in
`src/types.py`, whose source is not under `src/`; the constructor names are
those used by `src/utils/enka.py`). -/
inductive StatModifier where
  | HP_FLAT | HP_PERCENT
  | ATK_FLAT | ATK_PERCENT
  | DEF_FLAT | DEF_PERCENT
  | CR | CD | ER | EM
  | HealingBonus
  | DMG_Physical | DMG_Fire | DMG_Electro | DMG_Hydro
  | DMG_Anemo | DMG_Cryo | DMG_Geo | DMG_Dendro
  deriving DecidableEq, Repr

/-- The distinct failure modes of `src/utils/enka.py`, one constructor per
distinct raise site (the Python code raises `ValueError` / `HTTPError` /
`Exception` with distinct messages). -/
inductive EnkaError where
  | notAnArtifactStat (prop_id : String)
  | invalidStatIdentifier (prop_id : String)
  | invalidEquipType (equip_type : String)
  | ambiguousEquipment (count : Nat)
  | knownRemoteError (code : Nat) (msg : String)
  | unexpectedRemoteError (code : Nat)
  | malformedResponse
  | missingReliquary
  deriving DecidableEq, Repr

/-- Embedding of `prop_id_to_artifact_stat` (src/utils/enka.py, lines 16-62):
convert a property ID to an artifact stat; the base-attack identifier raises
its own error, every other unrecognized string raises the invalid-identifier
error. -/
def prop_id_to_artifact_stat (prop_id : String) : Except EnkaError StatModifier :=
  match prop_id with
  | "FIGHT_PROP_BASE_ATTACK" => .error (.notAnArtifactStat prop_id)
  | "FIGHT_PROP_HP" => .ok .HP_FLAT
  | "FIGHT_PROP_HP_PERCENT" => .ok .HP_PERCENT
  | "FIGHT_PROP_ATTACK" => .ok .ATK_FLAT
  | "FIGHT_PROP_ATTACK_PERCENT" => .ok .ATK_PERCENT
  | "FIGHT_PROP_DEFENSE" => .ok .DEF_FLAT
  | "FIGHT_PROP_DEFENSE_PERCENT" => .ok .DEF_PERCENT
  | "FIGHT_PROP_CRITICAL" => .ok .CR
  | "FIGHT_PROP_CRITICAL_HURT" => .ok .CD
  | "FIGHT_PROP_CHARGE_EFFICIENCY" => .ok .ER
  | "FIGHT_PROP_ELEMENT_MASTERY" => .ok .EM
  | "FIGHT_PROP_HEAL_ADD" => .ok .HealingBonus
  | "FIGHT_PROP_PHYSICAL_ADD_HURT" => .ok .DMG_Physical
  | "FIGHT_PROP_FIRE_ADD_HURT" => .ok .DMG_Fire
  | "FIGHT_PROP_ELEC_ADD_HURT" => .ok .DMG_Electro
  | "FIGHT_PROP_WATER_ADD_HURT" => .ok .DMG_Hydro
  | "FIGHT_PROP_WIND_ADD_HURT" => .ok .DMG_Anemo
  | "FIGHT_PROP_ICE_ADD_HURT" => .ok .DMG_Cryo
  | "FIGHT_PROP_ROCK_ADD_HURT" => .ok .DMG_Geo
  | "FIGHT_PROP_GRASS_ADD_HURT" => .ok .DMG_Dendro
  | _ => .error (.invalidStatIdentifier prop_id)

/-- The nineteen property-identifier strings that `prop_id_to_artifact_stat`
maps to a `StatModifier` (the match arms other than base attack and the
catch-all). -/
def recognized_prop_ids : List String :=
  [ "FIGHT_PROP_HP", "FIGHT_PROP_HP_PERCENT",
    "FIGHT_PROP_ATTACK", "FIGHT_PROP_ATTACK_PERCENT",
    "FIGHT_PROP_DEFENSE", "FIGHT_PROP_DEFENSE_PERCENT",
    "FIGHT_PROP_CRITICAL", "FIGHT_PROP_CRITICAL_HURT",
    "FIGHT_PROP_CHARGE_EFFICIENCY", "FIGHT_PROP_ELEMENT_MASTERY",
    "FIGHT_PROP_HEAL_ADD",
    "FIGHT_PROP_PHYSICAL_ADD_HURT", "FIGHT_PROP_FIRE_ADD_HURT",
    "FIGHT_PROP_ELEC_ADD_HURT", "FIGHT_PROP_WATER_ADD_HURT",
    "FIGHT_PROP_WIND_ADD_HURT", "FIGHT_PROP_ICE_ADD_HURT",
    "FIGHT_PROP_ROCK_ADD_HURT", "FIGHT_PROP_GRASS_ADD_HURT" ]

/-- Modelled from the spec: the `Stat` enumeration of `src/types.py` (not under
`src/`); per the spec, `Stat ∈ {HP, ATK, DEF, CR, CD, ER, EM}`. -/
inductive Stat where
  | HP | ATK | DEF | CR | CD | ER | EM
  deriving DecidableEq, Repr

/-- Modelled from the spec: the `ArtifactType` enumeration of `src/types.py`
(not under `src/`): Flower, Plume, Sands, Goblet, Circlet. -/
inductive ArtifactType where
  | FLOWER | PLUME | SANDS | GOBLET | CIRCLET
  deriving DecidableEq, Repr

/-- One entry of an artifact's `flat.reliquarySubstats` list: the fields read
by `get_artifact_substats`. -/
structure SubstatDict where
  appendPropId : String
  statValue : ℚ
  deriving DecidableEq, Repr

/-- The `flat.reliquaryMainstat` sub-object: the fields read by
`get_artifact_main_stat`. -/
structure ReliquaryMainstat where
  mainPropId : String
  statValue : ℚ
  deriving DecidableEq, Repr

/-- The `reliquary` sub-object of an equipped artifact: the fields read by
`get_artifact_level` and `get_artifact_rolls`. -/
structure ReliquaryData where
  level : ℤ
  appendPropIdList : List ℤ
  deriving DecidableEq, Repr

/-- The `flat` sub-object of an equipped item: the fields read by
`get_artifact_type`, `get_artifact_main_stat` and `get_artifact_substats`. -/
structure FlatData where
  equipType : String
  reliquaryMainstat : ReliquaryMainstat
  reliquarySubstats : List SubstatDict
  deriving DecidableEq, Repr

/-- The `weapon` sub-object of an equipped item; `src/utils/enka.py` only
tests its presence, never reads its fields. -/
structure WeaponData where
  itemId : ℤ
  deriving DecidableEq, Repr

/-- One entry of a character's `equipList` (`EquipmentDict` in the source):
the `weapon` and `reliquary` keys are optional and discriminate weapons from
artifacts. -/
structure EquipmentDict where
  weapon : Option WeaponData
  reliquary : Option ReliquaryData
  flat : FlatData
  deriving DecidableEq, Repr

/-- A character entry (`CharacterDict` in the source): the fight-property map
(string-coded, modelled as an association list as read through Python's
`dict.get`) and the equip list. -/
structure CharacterDict where
  fightPropMap : List (String × ℚ)
  equipList : List EquipmentDict
  deriving DecidableEq, Repr

/-- Python's `fight_prop_map.get(key, 0)`: the value at `key`, defaulting a
missing code to `0`. -/
def fightPropGet (d : CharacterDict) (key : String) : ℚ :=
  match d.fightPropMap.find? (fun p => p.1 == key) with
  | some p => p.2
  | none => 0

/-- Embedding of `get_character_stat` (src/utils/enka.py, lines 185-215):
HP/ATK/DEF combine base/flat/percent fight-property codes as
`base * (1 + percent) + flat`; CR/CD/ER/EM read a single code.  `Stat` being
the closed seven-value enumeration, the source's catch-all arm (raising
`ValueError` for an invalid stat) is unreachable. -/
def get_character_stat (character_dict : CharacterDict) (stat : Stat) : ℚ :=
  match stat with
  | .HP =>
      let hp_base := fightPropGet character_dict "1"
      let hp_flat := fightPropGet character_dict "2"
      let hp_percent := fightPropGet character_dict "3"
      hp_base * (1 + hp_percent) + hp_flat
  | .ATK =>
      let atk_base := fightPropGet character_dict "4"
      let atk_flat := fightPropGet character_dict "5"
      let atk_percent := fightPropGet character_dict "6"
      atk_base * (1 + atk_percent) + atk_flat
  | .DEF =>
      let def_base := fightPropGet character_dict "7"
      let def_flat := fightPropGet character_dict "8"
      let def_percent := fightPropGet character_dict "9"
      def_base * (1 + def_percent) + def_flat
  | .CR => fightPropGet character_dict "20"
  | .CD => fightPropGet character_dict "22"
  | .ER => fightPropGet character_dict "23"
  | .EM => fightPropGet character_dict "28"

/-- One element of the `RELIQUARIAFFIXEXCELCONFIGDATA` affix reference table
(external reference data loaded by `src/genshin_constants.py`): the fields
`id`, `propType`, `propValue` read by `get_artifact_rolls`.  The table itself
is external input, so the functions below take it as a parameter. -/
structure AffixElement where
  id : ℤ
  propType : String
  propValue : ℚ
  deriving DecidableEq, Repr

/-- Embedding of `get_artifact_rolls` (src/utils/enka.py, lines 65-88): for
each roll ID of the artifact, every affix-table element with a matching `id`
contributes one `(stat, value)` pair (the Python inner loop has no break); a
roll ID matching no element is silently skipped.  An item without reliquary
data makes the Python code raise (iterating `None`), modelled by
`missingReliquary`. -/
def get_artifact_rolls (table : List AffixElement) (artifact_dict : EquipmentDict) :
    Except EnkaError (List (StatModifier × ℚ)) :=
  match artifact_dict.reliquary with
  | none => .error .missingReliquary
  | some reliquary =>
    let roll_ids := reliquary.appendPropIdList
    roll_ids.foldlM (fun rolls roll_id =>
      table.foldlM (fun rolls element =>
        if element.id == roll_id then do
          let roll_type ← prop_id_to_artifact_stat element.propType
          pure (rolls ++ [(roll_type, element.propValue)])
        else
          pure rolls)
        rolls)
      ([] : List (StatModifier × ℚ))

/-- Embedding of `get_artifact_main_stat` (src/utils/enka.py, lines 91-110).
`percent_stat_modifiers` stands for `PERCENT_STAT_MODIFIERS` from
`src/types.py`, which is not under `src/`; per the spec only a fixed subset of
kinds is percentage-scaled, so the set is taken as a parameter. -/
def get_artifact_main_stat (percent_stat_modifiers : List StatModifier)
    (artifact_dict : EquipmentDict) : Except EnkaError (StatModifier × ℚ) := do
  let main_stat_id := artifact_dict.flat.reliquaryMainstat.mainPropId
  let main_stat_value := artifact_dict.flat.reliquaryMainstat.statValue
  let main_stat_type ← prop_id_to_artifact_stat main_stat_id
  if main_stat_type ∈ percent_stat_modifiers then
    pure (main_stat_type, main_stat_value / 100)
  else
    pure (main_stat_type, main_stat_value)

/-- Embedding of `get_artifact_substats` (src/utils/enka.py, lines 113-143):
translate and normalize each substat entry in order. -/
def get_artifact_substats (percent_stat_modifiers : List StatModifier)
    (artifact_dict : EquipmentDict) : Except EnkaError (List (StatModifier × ℚ)) :=
  artifact_dict.flat.reliquarySubstats.mapM (fun substat_dict => do
    let substat_type ← prop_id_to_artifact_stat substat_dict.appendPropId
    if substat_type ∈ percent_stat_modifiers then
      pure (substat_type, substat_dict.statValue / 100)
    else
      pure (substat_type, substat_dict.statValue))

/-- Embedding of `get_artifact_level` (src/utils/enka.py, lines 171-175). -/
def get_artifact_level (artifact_dict : EquipmentDict) : Except EnkaError ℤ :=
  match artifact_dict.reliquary with
  | none => .error .missingReliquary
  | some reliquary => .ok reliquary.level

/-- Embedding of `get_character_weapon` (src/utils/enka.py, lines 218-236):
keep only the equipped items that have a `weapon` key; raise unless exactly
one remains. -/
def get_character_weapon (character_dict : CharacterDict) :
    Except EnkaError EquipmentDict :=
  let weapon_dict := character_dict.equipList.filter
    (fun equip_dict => equip_dict.weapon.isSome)
  match weapon_dict with
  | [w] => .ok w
  | l => .error (.ambiguousEquipment l.length)

/-- Embedding of `get_artifact_type` (src/utils/enka.py, lines 239-256). -/
def get_artifact_type (artifact_dict : EquipmentDict) :
    Except EnkaError ArtifactType :=
  let equip_type := artifact_dict.flat.equipType
  match equip_type with
  | "EQUIP_BRACER" => .ok .FLOWER
  | "EQUIP_NECKLACE" => .ok .PLUME
  | "EQUIP_SHOES" => .ok .SANDS
  | "EQUIP_RING" => .ok .GOBLET
  | "EQUIP_DRESS" => .ok .CIRCLET
  | _ => .error (.invalidEquipType equip_type)

/-- Embedding of `get_character_artifact` (src/utils/enka.py, lines 259-286):
keep only the equipped items that have a `reliquary` key, compute the
`ArtifactType` of every one of them, then return the item at the first index
whose type is the requested one, or `none` if the type does not occur. -/
def get_character_artifact (character_dict : CharacterDict)
    (artifact_type : ArtifactType) : Except EnkaError (Option EquipmentDict) := do
  let artifact_dicts := character_dict.equipList.filter
    (fun equip_dict => equip_dict.reliquary.isSome)
  let artifact_types ← artifact_dicts.mapM get_artifact_type
  if artifact_type ∈ artifact_types then
    let type_index := List.indexOf artifact_type artifact_types
    pure artifact_dicts[type_index]?
  else
    pure none

/-- The provider base URL, from `src/genshin_constants.py`. -/
def BASE_URL : String := "https://enka.network/api/uid"

/-- Modelled from the spec: `PLAYER_CACHE_EXPIRATION` from
`src/constants/general.py` (not under `src/`); the spec fixes the expiration
window at 1 day, here in seconds. -/
def PLAYER_CACHE_EXPIRATION : ℤ := 86400

/-- A raw player profile (`PlayerDict`): an opaque JSON document, identified
by its parsed content. -/
structure PlayerDict where
  data : String
  deriving DecidableEq, Repr

/-- The on-disk cache file for one player identifier: its byte content and
its last-modified time (seconds). -/
structure CachedFile where
  content : String
  mtime : ℤ
  deriving DecidableEq, Repr

/-- An HTTP response as seen by `get_player_dict`: status code and body. -/
structure RemoteResponse where
  status_code : Nat
  body : String
  deriving DecidableEq, Repr

/-- Modelled from the spec: the effectful context of `get_player_dict`
(filesystem, clock, JSON codec, `RESPONSE_CODES` table from
`src/constants/enka.py`, and HTTP transport), none of which is under `src/`.
`cache_file` is the state of `PLAYERS_CACHE_FOLDER/{uid}.json` for the
requested uid; `remote` maps the `summary_only` flag to the provider's
response. -/
structure Env where
  cache_file : Option CachedFile
  now : ℤ
  json_load : String → Option PlayerDict
  json_dump : PlayerDict → String
  response_codes : List (Nat × String)
  remote : Bool → RemoteResponse

/-- The observable outcome of one `get_player_dict` call: the returned value
or error, the remote URLs requested (in order), and the cache-file content
written, if any. -/
structure FetchOutcome where
  result : Except EnkaError PlayerDict
  remote_calls : List String
  cache_write : Option String

/-- The no-usable-cache path of `get_player_dict` (src/utils/enka.py, lines
331-357): request the full or info-only endpoint, classify the status code
via `RESPONSE_CODES`, parse the body, and if `allow_file_cache` is set write
the data back to the cache file. -/
def remote_fetch_path (env : Env) (uid : ℤ) (summary_only : Bool)
    (allow_file_cache : Bool) : FetchOutcome :=
  let url := if !summary_only then BASE_URL ++ "/" ++ toString uid
             else BASE_URL ++ "/" ++ toString uid ++ "?info"
  let response := env.remote summary_only
  match env.response_codes.find? (fun p => p.1 == response.status_code) with
  | some p =>
    { result := .error (.knownRemoteError response.status_code p.2),
      remote_calls := [url], cache_write := none }
  | none =>
    if response.status_code != 200 then
      { result := .error (.unexpectedRemoteError response.status_code),
        remote_calls := [url], cache_write := none }
    else
      match env.json_load response.body with
      | none =>
        { result := .error .malformedResponse,
          remote_calls := [url], cache_write := none }
      | some data =>
        { result := .ok data,
          remote_calls := [url],
          cache_write := if allow_file_cache then some (env.json_dump data) else none }

/-- Embedding of `get_player_dict` (src/utils/enka.py, lines 289-357): when
`allow_file_cache` is set and the cache file exists and is strictly younger
than `PLAYER_CACHE_EXPIRATION`, parse and return it; a cache parse failure is
caught and falls through to the remote fetch, as does a stale or absent
file. -/
def get_player_dict (env : Env) (uid : ℤ) (summary_only : Bool)
    (allow_file_cache : Bool) : FetchOutcome :=
  match env.cache_file with
  | some file =>
    if allow_file_cache then
      if env.now - file.mtime < PLAYER_CACHE_EXPIRATION then
        match env.json_load file.content with
        | some data => { result := .ok data, remote_calls := [], cache_write := none }
        | none => remote_fetch_path env uid summary_only allow_file_cache
      else
        remote_fetch_path env uid summary_only allow_file_cache
    else
      remote_fetch_path env uid summary_only allow_file_cache
  | none => remote_fetch_path env uid summary_only allow_file_cache

/-- Spec-side description of `artifactRolls` (spec §4.4): look each roll
identifier up in the affix table by exact identifier match, pair the
translated stat kind with the affix's defined value (no division by 100),
keep roll-identifier order, and skip identifiers with no match. -/
def artifactRollsSpec (table : List AffixElement) (roll_ids : List ℤ) :
    List (StatModifier × ℚ) :=
  roll_ids.filterMap (fun roll_id =>
    match table.find? (fun element => element.id == roll_id) with
    | some element =>
      match prop_id_to_artifact_stat element.propType with
      | .ok k => some (k, element.propValue)
      | .error _ => none
    | none => none)

/-- Spec-side description of `artifact` (spec §4.4): the first
reliquary-bearing item in iteration order whose computed type matches the
requested one, or absent. -/
def first_artifact_match (artifact_dicts : List EquipmentDict)
    (artifact_types : List ArtifactType) (t : ArtifactType) :
    Option EquipmentDict :=
  ((artifact_dicts.zip artifact_types).find? (fun p => p.2 == t)).map Prod.fst

/-- The normalization step of spec §3 `StatRoll`: percentage-scaled kinds
divide the raw value by 100, flat-scaled kinds keep it unchanged. -/
def normalize_stat (percent_stat_modifiers : List StatModifier)
    (k : StatModifier) (v : ℚ) : StatModifier × ℚ :=
  if k ∈ percent_stat_modifiers then (k, v / 100) else (k, v)

/-!  ## Theorems  -/

/-- C1: for every character entry, `get_character_stat` for HP, ATK and DEF
reads the stat-specific base/flat/percent fight-property codes (HP: 1/2/3,
ATK: 4/5/6, DEF: 7/8/9) from the entry's fight-property map, defaulting each
missing code to 0 (`fightPropGet`), and returns `base * (1 + percent) +
flat`; for CR, CD, ER and EM it returns the single code 20, 22, 23 or 28
respectively, defaulting to 0; an entry with an empty fight-property map
yields 0 for every stat.  (`Stat` is the spec's closed seven-value
enumeration, so the source's invalid-stat arm is unreachable.) -/
theorem get_character_stat_spec (d : CharacterDict) :
    get_character_stat d .HP
      = fightPropGet d "1" * (1 + fightPropGet d "3") + fightPropGet d "2" ∧
    get_character_stat d .ATK
      = fightPropGet d "4" * (1 + fightPropGet d "6") + fightPropGet d "5" ∧
    get_character_stat d .DEF
      = fightPropGet d "7" * (1 + fightPropGet d "9") + fightPropGet d "8" ∧
    get_character_stat d .CR = fightPropGet d "20" ∧
    get_character_stat d .CD = fightPropGet d "22" ∧
    get_character_stat d .ER = fightPropGet d "23" ∧
    get_character_stat d .EM = fightPropGet d "28" ∧
    (∀ (es : List EquipmentDict) (s : Stat),
      get_character_stat ⟨[], es⟩ s = 0) := by
  refine ⟨rfl, rfl, rfl, rfl, rfl, rfl, rfl, ?_⟩
  intro es s
  cases s <;> simp [get_character_stat, fightPropGet]

/-- C2: `prop_id_to_artifact_stat` is total and deterministic over the
recognized identifiers, mapping each to a stat kind; every unrecognized
string fails with the invalid-identifier error; the base-attack identifier
specifically fails with the distinguishable not-an-artifact-stat error. -/
theorem prop_id_to_artifact_stat_spec :
    prop_id_to_artifact_stat "FIGHT_PROP_BASE_ATTACK"
      = .error (.notAnArtifactStat "FIGHT_PROP_BASE_ATTACK") ∧
    (∀ s ∈ recognized_prop_ids, ∃ k : StatModifier,
      prop_id_to_artifact_stat s = .ok k) ∧
    (∀ s : String, s ∉ recognized_prop_ids → s ≠ "FIGHT_PROP_BASE_ATTACK" →
      prop_id_to_artifact_stat s = .error (.invalidStatIdentifier s)) := by
  refine ⟨rfl, ?_, ?_⟩
  · intro s hs
    fin_cases hs <;> exact ⟨_, rfl⟩
  · intro s h1 h2
    simp only [recognized_prop_ids, List.mem_cons, List.not_mem_nil,
      or_false, not_or] at h1
    unfold prop_id_to_artifact_stat
    split <;> simp_all

/-- Witness for C2 at a concrete unrecognized identifier. -/
theorem prop_id_to_artifact_stat_spec_witness :
    ("FIGHT_PROP_SPEED_PERCENT" ∉ recognized_prop_ids) ∧
    prop_id_to_artifact_stat "FIGHT_PROP_SPEED_PERCENT"
      = .error (.invalidStatIdentifier "FIGHT_PROP_SPEED_PERCENT") :=
  ⟨by decide,
   prop_id_to_artifact_stat_spec.2.2 "FIGHT_PROP_SPEED_PERCENT"
     (by decide) (by decide)⟩

/-- C4 (amended): `get_character_weapon` filters the equip list to the items
that have a `weapon` key — not, as originally claimed, to the items lacking
reliquary data — fails with the ambiguous-equipment error unless exactly one
item remains, and in particular fails on an entry with two weapon-shaped
items. -/
theorem get_character_weapon_spec (d : CharacterDict) :
    (∀ w, d.equipList.filter (fun e => e.weapon.isSome) = [w] →
      get_character_weapon d = .ok w) ∧
    ((d.equipList.filter (fun e => e.weapon.isSome)).length ≠ 1 →
      get_character_weapon d
        = .error (.ambiguousEquipment
            (d.equipList.filter (fun e => e.weapon.isSome)).length)) ∧
    (∀ (m : List (String × ℚ)) (e1 e2 : EquipmentDict),
      e1.weapon.isSome = true → e2.weapon.isSome = true →
      get_character_weapon ⟨m, [e1, e2]⟩ = .error (.ambiguousEquipment 2)) := by
  refine ⟨?_, ?_, ?_⟩
  · intro w h
    simp [get_character_weapon, h]
  · intro h
    unfold get_character_weapon
    cases hf : d.equipList.filter (fun e => e.weapon.isSome) with
    | nil => simp [hf]
    | cons w tl =>
      cases tl with
      | nil => rw [hf] at h; exact absurd rfl h
      | cons w2 tl2 => simp [hf]
  · intro m e1 e2 h1 h2
    simp [get_character_weapon, List.filter_cons, h1, h2]

/-- Witness for C4: a two-weapon entry fails, a one-weapon entry succeeds. -/
theorem get_character_weapon_spec_witness :
    get_character_weapon
      ⟨[], [⟨some ⟨1⟩, none, ⟨"", ⟨"", 0⟩, []⟩⟩, ⟨some ⟨2⟩, none, ⟨"", ⟨"", 0⟩, []⟩⟩]⟩
      = .error (.ambiguousEquipment 2) ∧
    get_character_weapon ⟨[], [⟨some ⟨1⟩, none, ⟨"", ⟨"", 0⟩, []⟩⟩]⟩
      = .ok ⟨some ⟨1⟩, none, ⟨"", ⟨"", 0⟩, []⟩⟩ ∧
    get_character_weapon ⟨[], []⟩ = .error (.ambiguousEquipment 0) :=
  ⟨(get_character_weapon_spec ⟨[], []⟩).2.2 [] _ _ rfl rfl,
   (get_character_weapon_spec ⟨[], [⟨some ⟨1⟩, none, ⟨"", ⟨"", 0⟩, []⟩⟩]⟩).1 _ (by decide),
   (get_character_weapon_spec ⟨[], []⟩).2.1 (by decide)⟩

/-- Counterexample to C4 as originally stated ("filters the entry's equipped
items to those lacking reliquary data, fails with AmbiguousEquipment unless
exactly one item remains"): for an entry whose single equipped item carries
both a `weapon` and a `reliquary` sub-structure, the lacking-reliquary
filter keeps zero items, so the original claim demands the
ambiguous-equipment failure — yet `get_character_weapon` returns the item,
because the code filters on the presence of the `weapon` key instead. -/
theorem get_character_weapon_counterexample :
    ((⟨[], [⟨some ⟨1⟩, some ⟨0, []⟩, ⟨"", ⟨"", 0⟩, []⟩⟩]⟩ :
        CharacterDict).equipList.filter
        (fun e => e.reliquary.isNone)).length ≠ 1 ∧
    get_character_weapon ⟨[], [⟨some ⟨1⟩, some ⟨0, []⟩, ⟨"", ⟨"", 0⟩, []⟩⟩]⟩
      = .ok ⟨some ⟨1⟩, some ⟨0, []⟩, ⟨"", ⟨"", 0⟩, []⟩⟩ :=
  ⟨by decide, rfl⟩

/-- Every branch of the remote-fetch path performs exactly one remote call,
to the endpoint selected by `summary_only`. -/
theorem remote_fetch_path_one_call (env : Env) (uid : ℤ) (s a : Bool) :
    (remote_fetch_path env uid s a).remote_calls
      = [if !s then BASE_URL ++ "/" ++ toString uid
         else BASE_URL ++ "/" ++ toString uid ++ "?info"] := by
  unfold remote_fetch_path
  simp only []
  repeat' split
  all_goals rfl

/-- C5: with caching allowed, an existing cache file strictly younger than
the 1-day expiration window is parsed and returned with no remote call and no
cache write; when parsing the cached file fails, the call behaves exactly as
the remote-fetch path (performing one remote call), so the parse failure is
never surfaced to the caller as an error. -/
theorem get_player_dict_cache_hit_spec (env : Env) (uid : ℤ) (s : Bool)
    (file : CachedFile) (hfile : env.cache_file = some file)
    (hfresh : env.now - file.mtime < PLAYER_CACHE_EXPIRATION) :
    (∀ d, env.json_load file.content = some d →
      get_player_dict env uid s true = ⟨.ok d, [], none⟩) ∧
    (env.json_load file.content = none →
      get_player_dict env uid s true = remote_fetch_path env uid s true ∧
      (remote_fetch_path env uid s true).remote_calls.length = 1) := by
  constructor
  · intro d hd
    unfold get_player_dict
    rw [hfile]
    simp [hfresh, hd]
  · intro hnone
    refine ⟨?_, by rw [remote_fetch_path_one_call]; rfl⟩
    unfold get_player_dict
    rw [hfile]
    simp [hfresh, hnone]

/-- Witness for C5: a fresh parsable cache file is served with no remote
call; a fresh corrupt cache file degrades to the remote-fetch path. -/
theorem get_player_dict_cache_hit_spec_witness :
    get_player_dict
      ⟨some ⟨"cached", 0⟩, 100, fun c => some ⟨c⟩, fun d => d.data, [],
       fun _ => ⟨200, "live"⟩⟩ 800000001 false true
      = ⟨.ok ⟨"cached"⟩, [], none⟩ ∧
    get_player_dict
      ⟨some ⟨"corrupt", 0⟩, 100,
       (fun c => if c == "corrupt" then none else some ⟨c⟩),
       fun d => d.data, [], fun _ => ⟨200, "live"⟩⟩ 800000001 false true
      = remote_fetch_path
          ⟨some ⟨"corrupt", 0⟩, 100,
           (fun c => if c == "corrupt" then none else some ⟨c⟩),
           fun d => d.data, [], fun _ => ⟨200, "live"⟩⟩ 800000001 false true :=
  ⟨(get_player_dict_cache_hit_spec _ 800000001 false ⟨"cached", 0⟩ rfl
      (by decide)).1 ⟨"cached"⟩ rfl,
   ((get_player_dict_cache_hit_spec _ 800000001 false ⟨"corrupt", 0⟩ rfl
      (by decide)).2 rfl).1⟩

/-- C6: with caching allowed and no existing cache file, a successful fetch
performs exactly one remote call, returns the parsed profile and writes its
serialization to the cache file; a second fetch against the written file
within the expiration window performs zero remote calls and returns the same
profile content. -/
theorem get_player_dict_roundtrip_spec (env : Env) (uid : ℤ) (s : Bool)
    (d : PlayerDict) (t1 t2 : ℤ)
    (hnocache : env.cache_file = none)
    (hcodes : env.response_codes.find?
        (fun p => p.1 == (env.remote s).status_code) = none)
    (hstatus : (env.remote s).status_code = 200)
    (hbody : env.json_load (env.remote s).body = some d)
    (hroundtrip : env.json_load (env.json_dump d) = some d)
    (hfresh : t2 - t1 < PLAYER_CACHE_EXPIRATION) :
    (get_player_dict env uid s true).result = .ok d ∧
    (get_player_dict env uid s true).remote_calls.length = 1 ∧
    (get_player_dict env uid s true).cache_write = some (env.json_dump d) ∧
    get_player_dict
      { env with cache_file := some ⟨env.json_dump d, t1⟩, now := t2 }
      uid s true
      = ⟨.ok d, [], none⟩ := by
  have h1 : get_player_dict env uid s true = remote_fetch_path env uid s true := by
    unfold get_player_dict
    rw [hnocache]
  have h2 : remote_fetch_path env uid s true
      = ⟨.ok d, [if !s then BASE_URL ++ "/" ++ toString uid
                 else BASE_URL ++ "/" ++ toString uid ++ "?info"],
         some (env.json_dump d)⟩ := by
    unfold remote_fetch_path
    simp only []
    rw [hcodes]
    simp [hstatus, hbody]
  refine ⟨by rw [h1, h2], by rw [h1, h2]; cases s <;> rfl, by rw [h1, h2], ?_⟩
  unfold get_player_dict
  simp only []
  simp [hfresh, hroundtrip]

/-- Witness for C6 on a concrete environment and profile. -/
theorem get_player_dict_roundtrip_spec_witness :
    (get_player_dict ⟨none, 0, fun c => some ⟨c⟩, fun d => d.data, [],
        fun _ => ⟨200, "profile"⟩⟩ 800000001 false true).result
      = .ok ⟨"profile"⟩ ∧
    (get_player_dict ⟨none, 0, fun c => some ⟨c⟩, fun d => d.data, [],
        fun _ => ⟨200, "profile"⟩⟩ 800000001 false true).remote_calls.length = 1 ∧
    (get_player_dict ⟨none, 0, fun c => some ⟨c⟩, fun d => d.data, [],
        fun _ => ⟨200, "profile"⟩⟩ 800000001 false true).cache_write
      = some "profile" ∧
    get_player_dict ⟨some ⟨"profile", 0⟩, 1, fun c => some ⟨c⟩, fun d => d.data, [],
        fun _ => ⟨200, "profile"⟩⟩ 800000001 false true
      = ⟨.ok ⟨"profile"⟩, [], none⟩ :=
  get_player_dict_roundtrip_spec
    ⟨none, 0, fun c => some ⟨c⟩, fun d => d.data, [], fun _ => ⟨200, "profile"⟩⟩
    800000001 false ⟨"profile"⟩ 0 1 rfl rfl rfl rfl rfl (by decide)

/-- C10: the weapon and artifact classification predicates do not partition
the equip list: an item is a weapon candidate exactly when it has a `weapon`
key and an artifact candidate exactly when it has a `reliquary` key, so an
item carrying both sub-structures is counted by `get_character_weapon` as the
weapon and simultaneously returned by `get_character_artifact` for its type,
while an item carrying neither is counted by neither projection. -/
theorem equip_classification_spec (m : List (String × ℚ))
    (w : WeaponData) (r : ReliquaryData) (f g : FlatData) (t : ArtifactType) :
    (∀ (d : CharacterDict) (e : EquipmentDict),
      (e ∈ d.equipList.filter (fun x => x.weapon.isSome) ↔
        e ∈ d.equipList ∧ e.weapon.isSome = true) ∧
      (e ∈ d.equipList.filter (fun x => x.reliquary.isSome) ↔
        e ∈ d.equipList ∧ e.reliquary.isSome = true)) ∧
    get_character_weapon ⟨m, [⟨some w, some r, f⟩]⟩ = .ok ⟨some w, some r, f⟩ ∧
    (∀ ty, get_artifact_type ⟨some w, some r, f⟩ = .ok ty →
      get_character_artifact ⟨m, [⟨some w, some r, f⟩]⟩ ty
        = .ok (some ⟨some w, some r, f⟩)) ∧
    get_character_weapon ⟨m, [⟨none, none, g⟩]⟩
      = .error (.ambiguousEquipment 0) ∧
    get_character_artifact ⟨m, [⟨none, none, g⟩]⟩ t = .ok none := by
  refine ⟨?_, rfl, ?_, rfl, ?_⟩
  · intro d e
    constructor <;> simp [List.mem_filter]
  · intro ty hty
    have hmap : List.mapM get_artifact_type
        [(⟨some w, some r, f⟩ : EquipmentDict)] = .ok [ty] := by
      rw [List.mapM_cons, hty, List.mapM_nil]
      rfl
    unfold get_character_artifact
    simp only []
    rw [show List.filter (fun e => e.reliquary.isSome)
        [(⟨some w, some r, f⟩ : EquipmentDict)] = [⟨some w, some r, f⟩] from rfl]
    rw [hmap]
    show (if ty ∈ [ty] then
        pure ([(⟨some w, some r, f⟩ : EquipmentDict)])[List.indexOf ty [ty]]?
      else pure none : Except EnkaError (Option EquipmentDict))
      = Except.ok (some ⟨some w, some r, f⟩)
    rw [if_pos (List.mem_singleton_self ty), List.indexOf_cons_self]
    rfl
  · rfl

/-- Witness for C10: a concrete item carrying both a weapon and a reliquary
sub-structure is simultaneously the decoded weapon and the decoded goblet. -/
theorem equip_classification_spec_witness :
    get_character_weapon
      ⟨[], [⟨some ⟨7⟩, some ⟨0, []⟩, ⟨"EQUIP_RING", ⟨"FIGHT_PROP_HP", 299⟩, []⟩⟩]⟩
      = .ok ⟨some ⟨7⟩, some ⟨0, []⟩, ⟨"EQUIP_RING", ⟨"FIGHT_PROP_HP", 299⟩, []⟩⟩ ∧
    get_character_artifact
      ⟨[], [⟨some ⟨7⟩, some ⟨0, []⟩, ⟨"EQUIP_RING", ⟨"FIGHT_PROP_HP", 299⟩, []⟩⟩]⟩
      ArtifactType.GOBLET
      = .ok (some ⟨some ⟨7⟩, some ⟨0, []⟩, ⟨"EQUIP_RING", ⟨"FIGHT_PROP_HP", 299⟩, []⟩⟩) ∧
    get_character_weapon
      ⟨[], [⟨none, none, ⟨"EQUIP_RING", ⟨"FIGHT_PROP_HP", 299⟩, []⟩⟩]⟩
      = .error (.ambiguousEquipment 0) ∧
    get_character_artifact
      ⟨[], [⟨none, none, ⟨"EQUIP_RING", ⟨"FIGHT_PROP_HP", 299⟩, []⟩⟩]⟩
      ArtifactType.GOBLET
      = .ok none :=
  ⟨(equip_classification_spec [] ⟨7⟩ ⟨0, []⟩ ⟨"EQUIP_RING", ⟨"FIGHT_PROP_HP", 299⟩, []⟩
      ⟨"EQUIP_RING", ⟨"FIGHT_PROP_HP", 299⟩, []⟩ ArtifactType.GOBLET).2.1,
   (equip_classification_spec [] ⟨7⟩ ⟨0, []⟩ ⟨"EQUIP_RING", ⟨"FIGHT_PROP_HP", 299⟩, []⟩
      ⟨"EQUIP_RING", ⟨"FIGHT_PROP_HP", 299⟩, []⟩ ArtifactType.GOBLET).2.2.1
      ArtifactType.GOBLET rfl,
   (equip_classification_spec [] ⟨7⟩ ⟨0, []⟩ ⟨"EQUIP_RING", ⟨"FIGHT_PROP_HP", 299⟩, []⟩
      ⟨"EQUIP_RING", ⟨"FIGHT_PROP_HP", 299⟩, []⟩ ArtifactType.GOBLET).2.2.2.1,
   (equip_classification_spec [] ⟨7⟩ ⟨0, []⟩ ⟨"EQUIP_RING", ⟨"FIGHT_PROP_HP", 299⟩, []⟩
      ⟨"EQUIP_RING", ⟨"FIGHT_PROP_HP", 299⟩, []⟩ ArtifactType.GOBLET).2.2.2.2⟩

/-- Bind on a successful `Except` computation runs the continuation. -/
theorem except_bind_ok {ε α β : Type} (a : α) (k : α → Except ε β) :
    ((Except.ok a : Except ε α) >>= k) = k a := rfl

/-- Bind on a failed `Except` computation propagates the error. -/
theorem except_bind_error {ε α β : Type} (e : ε) (k : α → Except ε β) :
    ((Except.error e : Except ε α) >>= k) = Except.error e := rfl

/-- `pure` in the `Except` monad is `Except.ok`. -/
theorem except_pure_eq_ok {ε α : Type} (a : α) :
    (pure a : Except ε α) = Except.ok a := rfl

/-- A successful `Except`-valued `mapM` produces a list of the same length
whose i-th entry is the successful image of the i-th input. -/
theorem mapM_ok_get {α β : Type} (f : α → Except EnkaError β) :
    ∀ (l : List α) (ys : List β), l.mapM f = .ok ys →
      ys.length = l.length ∧
      ∀ (i : ℕ) (hi : i < l.length) (hj : i < ys.length),
        f (l.get ⟨i, hi⟩) = .ok (ys.get ⟨i, hj⟩) := by
  intro l
  induction l with
  | nil =>
    intro ys h
    rw [List.mapM_nil] at h
    cases h
    exact ⟨rfl, fun i hi => absurd hi (Nat.not_lt_zero i)⟩
  | cons a t ih =>
    intro ys h
    rw [List.mapM_cons] at h
    cases hfa : f a with
    | error e => rw [hfa, except_bind_error] at h; cases h
    | ok b =>
      rw [hfa, except_bind_ok] at h
      cases hft : t.mapM f with
      | error e => rw [hft, except_bind_error] at h; cases h
      | ok bs =>
        rw [hft, except_bind_ok] at h
        cases h
        obtain ⟨hlen, helem⟩ := ih bs hft
        refine ⟨by simp [hlen], ?_⟩
        intro i hi hj
        cases i with
        | zero => simpa using hfa
        | succ n =>
          exact helem n (Nat.lt_of_succ_lt_succ hi) (Nat.lt_of_succ_lt_succ hj)

/-- C3: for every artifact item, `get_artifact_main_stat` returns the raw
value divided by 100 when the translated kind is percentage-scaled and the
raw value unchanged otherwise (`normalize_stat`), and `get_artifact_substats`
applies the same rule to every entry of the substat list, preserving the
input order (the i-th output comes from the i-th input). -/
theorem artifact_stat_normalization_spec
    (percent_stat_modifiers : List StatModifier) (a : EquipmentDict) :
    (∀ k, prop_id_to_artifact_stat a.flat.reliquaryMainstat.mainPropId = .ok k →
      get_artifact_main_stat percent_stat_modifiers a
        = .ok (normalize_stat percent_stat_modifiers k
            a.flat.reliquaryMainstat.statValue)) ∧
    (∀ l, get_artifact_substats percent_stat_modifiers a = .ok l →
      l.length = a.flat.reliquarySubstats.length ∧
      ∀ (i : ℕ) (hi : i < a.flat.reliquarySubstats.length) (hj : i < l.length),
        ∃ k, prop_id_to_artifact_stat
              ((a.flat.reliquarySubstats.get ⟨i, hi⟩).appendPropId) = .ok k ∧
          l.get ⟨i, hj⟩ = normalize_stat percent_stat_modifiers k
            (a.flat.reliquarySubstats.get ⟨i, hi⟩).statValue) := by
  constructor
  · intro k hk
    unfold get_artifact_main_stat
    simp only []
    rw [hk, except_bind_ok]
    by_cases hmem : k ∈ percent_stat_modifiers <;>
      simp [normalize_stat, hmem, except_pure_eq_ok]
  · intro l hl
    obtain ⟨hlen, helem⟩ := mapM_ok_get _ _ _ hl
    refine ⟨hlen, ?_⟩
    intro i hi hj
    have h := helem i hi hj
    set s := a.flat.reliquarySubstats.get ⟨i, hi⟩ with hs
    cases hk : prop_id_to_artifact_stat s.appendPropId with
    | error e => rw [hk, except_bind_error] at h; cases h
    | ok k =>
      rw [hk, except_bind_ok] at h
      refine ⟨k, rfl, ?_⟩
      by_cases hmem : k ∈ percent_stat_modifiers <;>
        simp [normalize_stat, hmem, except_pure_eq_ok] at h ⊢ <;> exact h.symm

/-- Witness for C3 on a concrete artifact: a percent-scaled main stat is
divided by 100, a flat substat is kept unchanged, a percent substat is
divided by 100, in input order. -/
theorem artifact_stat_normalization_spec_witness :
    get_artifact_main_stat [StatModifier.HP_PERCENT, StatModifier.CR]
      ⟨none, some ⟨0, []⟩,
       ⟨"EQUIP_RING", ⟨"FIGHT_PROP_HP_PERCENT", 233/5⟩,
        [⟨"FIGHT_PROP_HP", 299⟩, ⟨"FIGHT_PROP_CRITICAL", 78/10⟩]⟩⟩
      = .ok (StatModifier.HP_PERCENT, 233/5/100) ∧
    (∃ k, prop_id_to_artifact_stat "FIGHT_PROP_CRITICAL" = .ok k ∧
      ((StatModifier.CR, 78/10/100) : StatModifier × ℚ)
        = normalize_stat [StatModifier.HP_PERCENT, StatModifier.CR] k (78/10)) :=
  ⟨((artifact_stat_normalization_spec [StatModifier.HP_PERCENT, StatModifier.CR]
      ⟨none, some ⟨0, []⟩,
       ⟨"EQUIP_RING", ⟨"FIGHT_PROP_HP_PERCENT", 233/5⟩,
        [⟨"FIGHT_PROP_HP", 299⟩, ⟨"FIGHT_PROP_CRITICAL", 78/10⟩]⟩⟩).1
      StatModifier.HP_PERCENT (by rfl)).trans (by rfl),
   ((artifact_stat_normalization_spec [StatModifier.HP_PERCENT, StatModifier.CR]
      ⟨none, some ⟨0, []⟩,
       ⟨"EQUIP_RING", ⟨"FIGHT_PROP_HP_PERCENT", 233/5⟩,
        [⟨"FIGHT_PROP_HP", 299⟩, ⟨"FIGHT_PROP_CRITICAL", 78/10⟩]⟩⟩).2
      [(StatModifier.HP_FLAT, 299), (StatModifier.CR, 78/10/100)] (by rfl)).2
      1 (by decide) (by decide)⟩

/-- Selecting the index of the first occurrence of `t` (when `t` occurs)
picks exactly the first zipped pair whose type matches `t`. -/
theorem index_first_match (t : ArtifactType) :
    ∀ (types : List ArtifactType) (dicts : List EquipmentDict),
      types.length = dicts.length →
      (if t ∈ types then dicts[List.indexOf t types]? else none)
        = first_artifact_match dicts types t := by
  intro types
  induction types with
  | nil =>
    intro dicts _
    simp [first_artifact_match]
  | cons ty tys ih =>
    intro dicts hlen
    cases dicts with
    | nil => cases hlen
    | cons d0 ds =>
      by_cases hty : t = ty
      · subst hty
        simp [first_artifact_match, List.indexOf_cons_self]
      · have hne : ty ≠ t := fun hh => hty hh.symm
        have hbeq : (ty == t) = false := beq_false_of_ne hne
        have hidx := List.indexOf_cons_ne tys hne
        simp only [first_artifact_match, List.zip_cons_cons, List.find?_cons,
          hbeq, List.mem_cons, hty, false_or, hidx, List.getElem?_cons_succ]
        have := ih ds (Nat.succ_injective hlen)
        simpa [first_artifact_match] using this

/-- C7: for every character entry and requested type,
`get_character_artifact` filters the equipped items to the
reliquary-bearing ones, and — provided every one of their equip types is
recognized — returns the first item in iteration order whose computed type
matches the requested type (`first_artifact_match`), or `none` when no item
matches; in particular it does not fail when two items share the same
type. -/
theorem get_character_artifact_first_spec (d : CharacterDict)
    (t : ArtifactType) (types : List ArtifactType)
    (h : (d.equipList.filter (fun e => e.reliquary.isSome)).mapM
          get_artifact_type = .ok types) :
    get_character_artifact d t
      = .ok (first_artifact_match
          (d.equipList.filter (fun e => e.reliquary.isSome)) types t) := by
  have hlen : types.length
      = (d.equipList.filter (fun e => e.reliquary.isSome)).length :=
    (mapM_ok_get _ _ _ h).1
  unfold get_character_artifact
  simp only []
  rw [h, except_bind_ok, ← index_first_match t types _ hlen]
  by_cases hmem : t ∈ types <;> simp [hmem, except_pure_eq_ok]

/-- Witness for C7: with two goblets equipped, the first one (in list order)
is returned without error; an absent type yields `none`. -/
theorem get_character_artifact_first_spec_witness :
    get_character_artifact
      ⟨[], [⟨none, some ⟨0, []⟩, ⟨"EQUIP_RING", ⟨"FIGHT_PROP_HP", 1⟩, []⟩⟩,
            ⟨none, some ⟨0, []⟩, ⟨"EQUIP_RING", ⟨"FIGHT_PROP_HP", 2⟩, []⟩⟩]⟩
      ArtifactType.GOBLET
      = .ok (some ⟨none, some ⟨0, []⟩, ⟨"EQUIP_RING", ⟨"FIGHT_PROP_HP", 1⟩, []⟩⟩) ∧
    get_character_artifact
      ⟨[], [⟨none, some ⟨0, []⟩, ⟨"EQUIP_RING", ⟨"FIGHT_PROP_HP", 1⟩, []⟩⟩,
            ⟨none, some ⟨0, []⟩, ⟨"EQUIP_RING", ⟨"FIGHT_PROP_HP", 2⟩, []⟩⟩]⟩
      ArtifactType.FLOWER
      = .ok none :=
  ⟨(get_character_artifact_first_spec _ ArtifactType.GOBLET
      [ArtifactType.GOBLET, ArtifactType.GOBLET] (by rfl)).trans (by rfl),
   (get_character_artifact_first_spec _ ArtifactType.FLOWER
      [ArtifactType.GOBLET, ArtifactType.GOBLET] (by rfl)).trans (by rfl)⟩

/-- An `Except`-valued `mapM` fails whenever some list element fails. -/
theorem mapM_error_of_mem {α β : Type} (f : α → Except EnkaError β) :
    ∀ l : List α, (∃ e ∈ l, ∃ err, f e = .error err) →
      ∃ err2, l.mapM f = .error err2 := by
  intro l
  induction l with
  | nil =>
    rintro ⟨e, he, _⟩
    cases he
  | cons a t ih =>
    rintro ⟨e, he, err, herr⟩
    rw [List.mapM_cons]
    cases hfa : f a with
    | error e2 => exact ⟨e2, by rw [except_bind_error]⟩
    | ok b =>
      rw [except_bind_ok]
      rcases List.mem_cons.mp he with rfl | hmem
      · rw [hfa] at herr; cases herr
      · obtain ⟨err2, ht⟩ := ih ⟨e, hmem, err, herr⟩
        exact ⟨err2, by rw [ht, except_bind_error]⟩

/-- A failing `Except`-valued `mapM` fails with the error of some element. -/
theorem mapM_error_mem {α β : Type} (f : α → Except EnkaError β) :
    ∀ (l : List α) (err : EnkaError), l.mapM f = .error err →
      ∃ e ∈ l, f e = .error err := by
  intro l
  induction l with
  | nil =>
    intro err h
    rw [List.mapM_nil] at h
    cases h
  | cons a t ih =>
    intro err h
    rw [List.mapM_cons] at h
    cases hfa : f a with
    | error e2 =>
      rw [hfa, except_bind_error] at h
      cases h
      exact ⟨a, List.mem_cons_self a t, hfa⟩
    | ok b =>
      rw [hfa, except_bind_ok] at h
      cases hft : t.mapM f with
      | error e3 =>
        rw [hft, except_bind_error] at h
        cases h
        obtain ⟨e, he, herr⟩ := ih _ hft
        exact ⟨e, List.mem_cons_of_mem a he, herr⟩
      | ok bs =>
        rw [hft, except_bind_ok] at h
        cases h

/-- Every failure of `get_artifact_type` is the invalid-equip-type error on
the item's equip-type string. -/
theorem get_artifact_type_error_shape (e : EquipmentDict) (err : EnkaError)
    (h : get_artifact_type e = .error err) :
    err = .invalidEquipType e.flat.equipType := by
  unfold get_artifact_type at h
  simp only [] at h
  split at h
  any_goals cases h
  rfl

/-- C9: if any reliquary-bearing equipped item of a character entry has an
unrecognized equip-type string, then `get_character_artifact` fails with
the invalid-equip-type error for every requested type — even for a type
that a valid equipped artifact carries — because the type of every filtered
artifact is computed before the requested type is selected. -/
theorem get_character_artifact_invalid_equip_spec (d : CharacterDict)
    (h : ∃ e ∈ d.equipList.filter (fun x => x.reliquary.isSome),
          ∃ err, get_artifact_type e = .error err) :
    ∃ s, ∀ t : ArtifactType,
      get_character_artifact d t = .error (.invalidEquipType s) := by
  obtain ⟨err2, hmap⟩ := mapM_error_of_mem get_artifact_type _ h
  obtain ⟨e, _, herr⟩ := mapM_error_mem get_artifact_type _ err2 hmap
  have hshape := get_artifact_type_error_shape e err2 herr
  refine ⟨e.flat.equipType, ?_⟩
  intro t
  unfold get_character_artifact
  simp only []
  rw [hmap, except_bind_error, hshape]

/-- Witness for C9: an entry holding a valid flower together with an
artifact whose equip type is unrecognized fails for every requested type,
the flower's own type included. -/
theorem get_character_artifact_invalid_equip_spec_witness :
    ∃ s, ∀ t : ArtifactType,
      get_character_artifact
        ⟨[], [⟨none, some ⟨0, []⟩, ⟨"EQUIP_BRACER", ⟨"FIGHT_PROP_HP", 1⟩, []⟩⟩,
              ⟨none, some ⟨0, []⟩, ⟨"EQUIP_BANANA", ⟨"FIGHT_PROP_HP", 1⟩, []⟩⟩]⟩
        t = .error (.invalidEquipType s) :=
  get_character_artifact_invalid_equip_spec _
    ⟨⟨none, some ⟨0, []⟩, ⟨"EQUIP_BANANA", ⟨"FIGHT_PROP_HP", 1⟩, []⟩⟩,
     by decide, ⟨.invalidEquipType "EQUIP_BANANA", by rfl⟩⟩

/-- The inner loop of `get_artifact_rolls` leaves the accumulator unchanged
when no table element matches the roll identifier. -/
theorem rolls_inner_no_match (x : ℤ) :
    ∀ (table : List AffixElement) (rolls : List (StatModifier × ℚ)),
      (∀ e ∈ table, e.id ≠ x) →
      table.foldlM (fun rolls element =>
        if element.id == x then do
          let roll_type ← prop_id_to_artifact_stat element.propType
          pure (rolls ++ [(roll_type, element.propValue)])
        else
          pure rolls) rolls = .ok rolls := by
  intro table
  induction table with
  | nil => intro rolls _; rfl
  | cons e t ih =>
    intro rolls h
    rw [List.foldlM_cons]
    have hne : (e.id == x) = false :=
      beq_false_of_ne (h e (List.mem_cons_self e t))
    rw [if_neg (by simp [hne]), except_pure_eq_ok, except_bind_ok]
    exact ih rolls (fun e2 he2 => h e2 (List.mem_cons_of_mem e he2))

/-- When the table's identifiers are pairwise distinct, the inner loop of
`get_artifact_rolls` behaves as a single `find?` lookup: it appends the
translated pair of the unique matching element, or nothing. -/
theorem rolls_inner_eq (x : ℤ) :
    ∀ table : List AffixElement,
      (table.map (fun e => e.id)).Nodup →
      ∀ rolls : List (StatModifier × ℚ),
      table.foldlM (fun rolls element =>
        if element.id == x then do
          let roll_type ← prop_id_to_artifact_stat element.propType
          pure (rolls ++ [(roll_type, element.propValue)])
        else
          pure rolls) rolls
        = match table.find? (fun e => e.id == x) with
          | none => .ok rolls
          | some e =>
            match prop_id_to_artifact_stat e.propType with
            | .ok k => .ok (rolls ++ [(k, e.propValue)])
            | .error er => .error er := by
  intro table
  induction table with
  | nil => intro _ rolls; rfl
  | cons e t ih =>
    intro hnodup rolls
    obtain ⟨hhead, htail⟩ := List.nodup_cons.mp
      (show (e.id :: t.map (fun e3 => e3.id)).Nodup from hnodup)
    rw [List.foldlM_cons]
    cases hbeq : (e.id == x) with
    | false =>
      rw [if_neg (by simp [hbeq]), except_pure_eq_ok, except_bind_ok,
        List.find?_cons_of_neg _ (by simp [hbeq])]
      exact ih htail rolls
    | true =>
      have hex : e.id = x := by simpa using hbeq
      have hnot : ∀ e2 ∈ t, e2.id ≠ x := by
        intro e2 he2 hc
        have hm : e.id ∈ t.map (fun e3 => e3.id) := by
          rw [hex, ← hc]
          exact List.mem_map_of_mem _ he2
        exact hhead hm
      rw [if_pos (by simp [hbeq]), List.find?_cons_of_pos _ (by simp [hbeq])]
      simp only []
      cases hk : prop_id_to_artifact_stat e.propType with
      | error er => rfl
      | ok k => exact rolls_inner_no_match x t _ hnot

/-- The outer loop of `get_artifact_rolls` computes `artifactRollsSpec` when
the table's identifiers are distinct and every matched affix translates. -/
theorem rolls_outer_eq (table : List AffixElement)
    (hnodup : (table.map (fun e => e.id)).Nodup) :
    ∀ (roll_ids : List ℤ) (rolls : List (StatModifier × ℚ)),
      (∀ roll_id ∈ roll_ids, ∀ e,
        table.find? (fun e2 => e2.id == roll_id) = some e →
        ∃ k, prop_id_to_artifact_stat e.propType = .ok k) →
      roll_ids.foldlM (fun rolls roll_id =>
        table.foldlM (fun rolls element =>
          if element.id == roll_id then do
            let roll_type ← prop_id_to_artifact_stat element.propType
            pure (rolls ++ [(roll_type, element.propValue)])
          else
            pure rolls) rolls) rolls
        = .ok (rolls ++ artifactRollsSpec table roll_ids) := by
  intro roll_ids
  induction roll_ids with
  | nil =>
    intro rolls _
    simp [artifactRollsSpec, except_pure_eq_ok]
  | cons rid rest ih =>
    intro rolls htrans
    rw [List.foldlM_cons, rolls_inner_eq rid table hnodup rolls]
    cases hfind : table.find? (fun e2 => e2.id == rid) with
    | none =>
      rw [except_bind_ok]
      have hspec : artifactRollsSpec table (rid :: rest)
          = artifactRollsSpec table rest := by
        unfold artifactRollsSpec
        rw [List.filterMap_cons]
        simp [hfind]
      rw [hspec]
      exact ih rolls (fun r hr => htrans r (List.mem_cons_of_mem rid hr))
    | some e =>
      obtain ⟨k, hk⟩ := htrans rid (List.mem_cons_self rid rest) e hfind
      simp only []
      rw [hk]
      simp only []
      rw [except_bind_ok]
      have hspec : artifactRollsSpec table (rid :: rest)
          = (k, e.propValue) :: artifactRollsSpec table rest := by
        unfold artifactRollsSpec
        rw [List.filterMap_cons]
        simp [hfind, hk]
      rw [hspec,
        ih (rolls ++ [(k, e.propValue)])
          (fun r hr => htrans r (List.mem_cons_of_mem rid hr))]
      simp

/-- C8: for every artifact item, `get_artifact_rolls` reads the item's roll
identifiers, looks each up in the affix table by exact identifier match
(unique, the table's identifiers being pairwise distinct), pairs the
translated stat kind with the affix's `propValue` with no division by 100,
keeps the roll-identifier order, and silently skips identifiers with no
match (`artifactRollsSpec`). -/
theorem get_artifact_rolls_spec (table : List AffixElement)
    (a : EquipmentDict) (r : ReliquaryData)
    (hrel : a.reliquary = some r)
    (hnodup : (table.map (fun e => e.id)).Nodup)
    (htrans : ∀ roll_id ∈ r.appendPropIdList, ∀ e,
      table.find? (fun e2 => e2.id == roll_id) = some e →
      ∃ k, prop_id_to_artifact_stat e.propType = .ok k) :
    get_artifact_rolls table a
      = .ok (artifactRollsSpec table r.appendPropIdList) := by
  unfold get_artifact_rolls
  rw [hrel]
  simp only []
  rw [rolls_outer_eq table hnodup r.appendPropIdList [] htrans]
  simp

/-- Witness for C8: roll 501023 (HP 299), an unmatched identifier 999, roll
501022 (CR 3.9), then 501023 again: output keeps list order, skips 999, and
applies no division. -/
theorem get_artifact_rolls_spec_witness :
    get_artifact_rolls
      [⟨501022, "FIGHT_PROP_CRITICAL", 39/10⟩, ⟨501023, "FIGHT_PROP_HP", 299⟩]
      ⟨none, some ⟨0, [501023, 999, 501022, 501023]⟩,
       ⟨"EQUIP_RING", ⟨"FIGHT_PROP_HP", 1⟩, []⟩⟩
      = .ok [(StatModifier.HP_FLAT, 299), (StatModifier.CR, 39/10),
             (StatModifier.HP_FLAT, 299)] :=
  (get_artifact_rolls_spec
    [⟨501022, "FIGHT_PROP_CRITICAL", 39/10⟩, ⟨501023, "FIGHT_PROP_HP", 299⟩]
    ⟨none, some ⟨0, [501023, 999, 501022, 501023]⟩,
     ⟨"EQUIP_RING", ⟨"FIGHT_PROP_HP", 1⟩, []⟩⟩
    ⟨0, [501023, 999, 501022, 501023]⟩ rfl (by decide)
    (by
      intro rid hrid e hfind
      fin_cases hrid
      · cases (show some (⟨501023, "FIGHT_PROP_HP", 299⟩ : AffixElement)
            = some e from hfind)
        exact ⟨StatModifier.HP_FLAT, rfl⟩
      · cases (show (none : Option AffixElement) = some e from hfind)
      · cases (show some (⟨501022, "FIGHT_PROP_CRITICAL", 39/10⟩ : AffixElement)
            = some e from hfind)
        exact ⟨StatModifier.CR, rfl⟩
      · cases (show some (⟨501023, "FIGHT_PROP_HP", 299⟩ : AffixElement)
            = some e from hfind)
        exact ⟨StatModifier.HP_FLAT, rfl⟩)).trans (by rfl)

end Enka
